import Mathlib

/-!
Shallow embedding of the speedy-proxy repository (src/server.js and the
unnamed sibling revision src/unnamed/part_000) in Lean 4, together with
theorems settling the frozen claims about its normalization pipeline,
site-resolution algorithm, print handling and carrier-client
classification.

Conventions of the embedding:
* JS strings become `String`; absent/undefined object fields become
  `Option` fields (`none` = key absent or `undefined`/`null`).
* Integer-valued JS numbers become `Int` (the ids, counts and weights the
  code manipulates are integers; `Number(String(n))` round-trips).
* The JS `||` operator on string-valued and number-valued operands is
  modelled by `jsOrStr` / `jsOrInt` ("" and 0 are falsy).
* Network effects are modelled by passing the carrier as an explicit
  oracle `SitePayload -> SiteRes`; the resolver additionally returns the
  list of payloads it actually sent, so call counts are observable.
* Thrown errors become `Except` / explicit outcome constructors.
-/

namespace SpeedyProxy

/-- Model of the JS `||` operator for string-valued operands:
`undefined`/`null` (`none`) and the empty string are falsy. -/
def jsOrStr (a b : Option String) : Option String :=
  match a with
  | some s => if s = "" then b else some s
  | none => b

/-- Model of the JS `||` operator for number-valued operands:
`undefined`/`null` (`none`) and 0 are falsy. -/
def jsOrInt (a b : Option Int) : Option Int :=
  match a with
  | some n => if n = 0 then b else some n
  | none => b

/-- Drop the leading whitespace characters of a character list. -/
def dropLeadingWs : List Char → List Char
  | [] => []
  | c :: cs => if c.isWhitespace then dropLeadingWs cs else c :: cs

/-- Drop the trailing whitespace characters of a character list. -/
def dropTrailingWs (cs : List Char) : List Char :=
  (dropLeadingWs cs.reverse).reverse

/-- The JS `String.prototype.trim`: strip whitespace at both ends
(an executable, kernel-reducible model). -/
def jsTrim (s : String) : String :=
  String.mk (dropTrailingWs (dropLeadingWs s.data))

/-- The JS `String.prototype.startsWith`. -/
def jsStartsWith (s pre : String) : Bool :=
  pre.data.isPrefixOf s.data

/-- Mirrors `safeStr` (server.js line 22): `String(x ?? "").trim()`. -/
def safeStr (x : Option String) : String := jsTrim (x.getD "")

/-- Mirrors `toInt` (server.js line 26) on integer-valued inputs:
`Number(String(x ?? "").trim())` with fallback 0; an absent value yields
`Number("") = 0`, and an integer round-trips through its decimal string. -/
def toInt (x : Option Int) : Int := x.getD 0

/-- Mirrors `DEFAULT_LANG` (server.js line 15). -/
def DEFAULT_LANG : String := "BG"

/-- Uppercase one character the way JS `String.prototype.toUpperCase`
does on the alphabets this program meets (ASCII and Cyrillic а..я, ё). -/
def jsCharUp (c : Char) : Char :=
  if 'a' ≤ c ∧ c ≤ 'z' then Char.ofNat (c.toNat - 32)
  else if 'а' ≤ c ∧ c ≤ 'я' then Char.ofNat (c.toNat - 32)
  else if c = 'ё' then 'Ё'
  else c

/-- Lowercase one character the way JS `String.prototype.toLowerCase`
does on ASCII and Cyrillic А..Я, Ё. -/
def jsCharLow (c : Char) : Char :=
  if 'A' ≤ c ∧ c ≤ 'Z' then Char.ofNat (c.toNat + 32)
  else if 'А' ≤ c ∧ c ≤ 'Я' then Char.ofNat (c.toNat + 32)
  else if c = 'Ё' then 'ё'
  else c

/-- JS `toUpperCase` restricted to the ASCII and Cyrillic alphabets. -/
def jsToUpper (s : String) : String := String.mk (s.data.map jsCharUp)

/-- JS `toLowerCase` restricted to the ASCII and Cyrillic alphabets. -/
def jsToLower (s : String) : String := String.mk (s.data.map jsCharLow)

/-- Mirrors the replacement of `/^гр\.\s*/i` (server.js line 34): a
case-insensitive Cyrillic "гр" then a literal dot, then any whitespace. -/
def stripGrDot (cs : List Char) : List Char :=
  match cs with
  | c1 :: c2 :: c3 :: rest =>
    if (c1 = 'г' ∨ c1 = 'Г') ∧ (c2 = 'р' ∨ c2 = 'Р') ∧ c3 = '.' then
      dropLeadingWs rest
    else cs
  | _ => cs

/-- Mirrors the replacement of `/^град\s+/i` (server.js line 35). -/
def stripGrad (cs : List Char) : List Char :=
  match cs with
  | c1 :: c2 :: c3 :: c4 :: c5 :: rest =>
    if (c1 = 'г' ∨ c1 = 'Г') ∧ (c2 = 'р' ∨ c2 = 'Р') ∧ (c3 = 'а' ∨ c3 = 'А')
        ∧ (c4 = 'д' ∨ c4 = 'Д') ∧ c5.isWhitespace then
      dropLeadingWs rest
    else cs
  | _ => cs

/-- Mirrors `cleanCityName` (server.js lines 32-37). -/
def cleanCityName (x : Option String) : String :=
  let s := safeStr x
  jsTrim (String.mk (stripGrad (stripGrDot s.data)))

/-- One permissive record for every duck-typed "address-like" object the
code meets: a recipient `address` sub-object and a carrier site
candidate. `siteNestedId` stands for the nested `site.id` key read by
`pickSiteId`. Absent keys are `none`. -/
structure Addr where
  id : Option Int := none
  siteId : Option Int := none
  siteNestedId : Option Int := none
  postCode : Option String := none
  zip : Option String := none
  cityName : Option String := none
  city : Option String := none
  name : Option String := none
  addressNote : Option String := none
deriving DecidableEq, Repr

/-- Mirrors `pickSiteId` (server.js lines 40-44): `obj?.id ?? obj?.siteId
?? obj?.site?.id`, numeric conversion, 0 when nothing usable. -/
def pickSiteId (obj : Option Addr) : Int :=
  match obj with
  | none => 0
  | some o => (((o.id).orElse (fun _ => o.siteId)).orElse (fun _ => o.siteNestedId)).getD 0

/-- A carrier `location/site/` response body: a bare list, an object with
one of the keys `sites` / `result` / `data` holding a list (a key set to
`none` is absent or not an array), or anything else. -/
structure SiteResObj where
  sites : Option (List Addr) := none
  result : Option (List Addr) := none
  data : Option (List Addr) := none
deriving DecidableEq, Repr

/-- Carrier response as seen by `extractSitesList`. -/
inductive SiteRes where
  | arr (xs : List Addr)
  | obj (o : SiteResObj)
  | other
deriving DecidableEq, Repr

/-- Mirrors `extractSitesList` (server.js lines 46-52): a bare array, or
the first array among `res.sites`, `res.result`, `res.data`, else `[]`. -/
def extractSitesList : SiteRes → List Addr
  | .arr xs => xs
  | .obj o =>
    match o.sites with
    | some xs => xs
    | none =>
      match o.result with
      | some xs => xs
      | none => o.data.getD []
  | .other => []

/-- One attempt of the resolver ladder: the varying `name` / `postCode`
pair (server.js lines 110-125). -/
structure SiteQuery where
  name : String
  postCode : String
deriving DecidableEq, Repr

/-- The full `location/site/` request payload built for one attempt
(server.js lines 130-137). -/
structure SitePayload where
  userName : String
  password : String
  language : String
  countryId : Int
  name : String
  postCode : String
deriving DecidableEq, Repr

/-- Mirrors the attempt-list construction of `resolveSiteId`
(server.js lines 110-125), in source order. -/
def buildAttempts (nameRaw zipRaw : String) : List SiteQuery :=
  (if nameRaw ≠ "" ∧ zipRaw ≠ "" then [⟨nameRaw, zipRaw⟩] else []) ++
  (if nameRaw ≠ "" then [⟨nameRaw, ""⟩] else []) ++
  (if zipRaw ≠ "" then [⟨"", zipRaw⟩] else []) ++
  (if nameRaw ≠ "" then
    [⟨jsToUpper nameRaw, zipRaw⟩, ⟨jsToLower nameRaw, zipRaw⟩]
   else [])

/-- Mirrors the payload construction inside the attempt loop
(server.js lines 130-137), `language || DEFAULT_LANG`, `countryId: 100`. -/
def mkPayload (userName password language : String) (a : SiteQuery) : SitePayload :=
  { userName := userName
    password := password
    language := if language = "" then DEFAULT_LANG else language
    countryId := 100
    name := a.name
    postCode := a.postCode }

/-- The postal-code predicate of the `sites.find` call (server.js
line 148): candidate post code equals, or starts with, the supplied zip. -/
def postMatch (zipRaw : String) (s : Addr) : Bool :=
  safeStr s.postCode == zipRaw || jsStartsWith (safeStr s.postCode) zipRaw

/-- A successful resolution: mirrors the object returned on lines 151 and
156 of server.js (`id`, `chosen`, `tried`, `sitesCount`). -/
structure Found where
  id : Int
  chosen : Option Addr
  tried : SitePayload
  sitesCount : Nat
deriving DecidableEq, Repr

/-- Candidate selection within one attempt: mirrors the body of the
`if (sites.length)` block (server.js lines 144-157). -/
def attemptPick (zipRaw : String) (sites : List Addr) (payload : SitePayload) :
    Option Found :=
  if sites.length ≠ 0 then
    let exactStep : Option Found :=
      if zipRaw ≠ "" then
        let exact := sites.find? (fun s => postMatch zipRaw s)
        let exactId := pickSiteId exact
        if exactId ≠ 0 then some ⟨exactId, exact, payload, sites.length⟩ else none
      else none
    match exactStep with
    | some f => some f
    | none =>
      let first := sites.head?
      let firstId := pickSiteId first
      if firstId ≠ 0 then some ⟨firstId, first, payload, sites.length⟩ else none
  else none

/-- The attempt loop of `resolveSiteId` (server.js lines 129-158): issues
the carrier calls strictly in order, stops at the first usable match.
Returns the match (if any), the response of the last call actually made,
and the list of payloads actually sent. -/
def runAttempts (carrier : SitePayload → SiteRes) (mk : SiteQuery → SitePayload)
    (zipRaw : String) : List SiteQuery → Option Found × Option SiteRes × List SitePayload
  | [] => (none, none, [])
  | a :: rest =>
    let payload := mk a
    let res := carrier payload
    match attemptPick zipRaw (extractSitesList res) payload with
    | some f => (some f, some res, [payload])
    | none =>
      let t := runAttempts carrier mk zipRaw rest
      (t.1, (t.2.1).orElse (fun _ => some res), payload :: t.2.2)

/-- Result of `resolveSiteId`: either the success object, or the failure
object of server.js line 160 (`id: 0`, `chosen: null`, `tried` = the
whole attempt list, `lastRes` = last raw carrier response). -/
inductive ResolveResult where
  | found (f : Found)
  | failed (tried : List SiteQuery) (lastRes : Option SiteRes)
deriving DecidableEq, Repr

/-- The `id` field of a resolution result (0 when resolution failed). -/
def ResolveResult.rid : ResolveResult → Int
  | .found f => f.id
  | .failed _ _ => 0

/-- Mirrors `resolveSiteId` (server.js lines 106-161), with the carrier
as an explicit oracle; also returns the list of payloads sent. -/
def resolveSiteId (carrier : SitePayload → SiteRes)
    (userName password language : String) (cityName postCode : Option String) :
    ResolveResult × List SitePayload :=
  let nameRaw := cleanCityName cityName
  let zipRaw := safeStr postCode
  let attempts := buildAttempts nameRaw zipRaw
  match runAttempts carrier (mkPayload userName password language) zipRaw attempts with
  | (some f, _, calls) => (.found f, calls)
  | (none, lastRes, calls) => (.failed attempts lastRes, calls)

/-- Mirrors `normalizeCourierServicePayer` (server.js lines 55-70). -/
def normalizeCourierServicePayer (x : Option String) : String :=
  let v := jsToUpper (safeStr x)
  if v = "" then "SENDER"
  else if v = "SENDER" ∨ v = "RECIPIENT" ∨ v = "THIRD_PARTY" then v
  else if v = "CONTRACT_CLIENT" ∨ v = "CLIENT" ∨ v = "CONTRACT" ∨ v = "SENDER_CLIENT" then
    "SENDER"
  else if v = "RECEIVER" then "RECIPIENT"
  else "SENDER"

/-- A structured phone object, as synthesized on server.js line 176. -/
structure Phone where
  number : String
deriving DecidableEq, Repr

/-- The sender object. `normalizeShipmentBody` spread-copies it verbatim
(server.js line 232); the fields listed are the ones the spec's claims
talk about. -/
structure Sender where
  clientId : Option Int := none
  dropoffPointId : Option Int := none
  clientName : Option String := none
  name : Option String := none
  contactName : Option String := none
  privatePerson : Option Bool := none
deriving DecidableEq, Repr

/-- The service object (pass-through, or the default of server.js
lines 215-218). -/
structure Service where
  serviceId : Option Int := none
  autoAdjustPickupDate : Option Bool := none
deriving DecidableEq, Repr

/-- The content object (pass-through, or the default of server.js
lines 220-225). -/
structure Content where
  parcelsCount : Option Int := none
  contents : Option String := none
  package : Option String := none
  totalWeight : Option Int := none
deriving DecidableEq, Repr

/-- The payment object; the code touches only `courierServicePayer`
(server.js lines 227-230). -/
structure Payment where
  courierServicePayer : Option String := none
deriving DecidableEq, Repr

/-- The recipient object, both as it may arrive in the request body and
as the normalizer rebuilds it. `stashCityName` / `stashPostCode` model
the `__cityName` / `__postCode` keys stashed for the resolver
(server.js lines 210-211). -/
structure Recipient where
  privatePerson : Option Bool := none
  clientName : Option String := none
  phone1 : Option Phone := none
  pickupOfficeId : Option Int := none
  address : Option Addr := none
  stashCityName : Option String := none
  stashPostCode : Option String := none
deriving DecidableEq, Repr

/-- The loosely-shaped request body of `normalizeShipmentBody`: every
key the function reads, under all its legacy aliases. `UserName` and
`Password` are the capitalized alias keys of lines 167-168; `address`
at top level is the free-text address-note alias of line 192. -/
structure Body where
  userName : Option String := none
  username : Option String := none
  user : Option String := none
  UserName : Option String := none
  password : Option String := none
  pass : Option String := none
  Password : Option String := none
  language : Option String := none
  recipient : Option Recipient := none
  receiverName : Option String := none
  recipientName : Option String := none
  receiverPhone : Option String := none
  pickupOfficeId : Option Int := none
  officeId : Option Int := none
  speedyOfficeId : Option Int := none
  receiverOfficeId : Option Int := none
  address : Option String := none
  addressNote : Option String := none
  receiverAddress : Option String := none
  city : Option String := none
  cityName : Option String := none
  receiverCity : Option String := none
  postCode : Option String := none
  zip : Option String := none
  receiverZip : Option String := none
  service : Option Service := none
  serviceId : Option Int := none
  content : Option Content := none
  parcelsCount : Option Int := none
  contents : Option String := none
  contentDescription : Option String := none
  package : Option String := none
  totalWeight : Option Int := none
  weight : Option Int := none
  payment : Option Payment := none
  courierServicePayer : Option String := none
  sender : Option Sender := none
  ref1 : Option String := none
  reference1 : Option String := none
  ref2 : Option String := none
  reference2 : Option String := none
  consolidationRef : Option String := none
deriving DecidableEq, Repr

/-- The office-id alias chain of server.js lines 180-186. -/
def officeIdOf (b : Body) : Int :=
  let rec0 := b.recipient.getD {}
  toInt (jsOrInt rec0.pickupOfficeId (jsOrInt b.pickupOfficeId (jsOrInt b.officeId
    (jsOrInt b.speedyOfficeId b.receiverOfficeId))))

/-- The address-note alias chain of server.js line 192. -/
def addrNoteOf (b : Body) : String :=
  let addr := (b.recipient.getD {}).address.getD {}
  safeStr (jsOrStr addr.addressNote (jsOrStr b.address (jsOrStr b.addressNote
    (jsOrStr b.receiverAddress (some "")))))

/-- The city-name alias chain of server.js lines 195-197. -/
def cityNameOf (b : Body) : String :=
  let addr := (b.recipient.getD {}).address.getD {}
  safeStr (jsOrStr b.city (jsOrStr b.cityName (jsOrStr b.receiverCity
    (jsOrStr addr.cityName (jsOrStr addr.city addr.name)))))

/-- The postal-code alias chain of server.js lines 198-200. -/
def postCodeOf (b : Body) : String :=
  let addr := (b.recipient.getD {}).address.getD {}
  safeStr (jsOrStr b.postCode (jsOrStr b.zip (jsOrStr b.receiverZip
    (jsOrStr addr.postCode addr.zip))))

/-- The normalized shipment returned by `normalizeShipmentBody`
(server.js lines 234-247). `rawStash` models the `__raw` key;
`siteResolution` models the `__siteResolution` key later set by
`enrichRecipientSiteIdIfNeeded` (absent, i.e. `none`, at build time). -/
structure Normalized where
  userName : String
  password : String
  language : String
  sender : Option Sender
  recipient : Recipient
  service : Service
  content : Content
  payment : Payment
  ref1 : String
  ref2 : String
  consolidationRef : String
  rawStash : Body
  siteResolution : Option ResolveResult := none
deriving DecidableEq, Repr

/-- Mirrors `normalizeShipmentBody` (server.js lines 164-248). -/
def normalizeShipmentBody (b : Body) : Normalized :=
  let userName := safeStr (jsOrStr b.userName (jsOrStr b.username (jsOrStr b.user b.UserName)))
  let password := safeStr (jsOrStr b.password (jsOrStr b.pass b.Password))
  let language :=
    let l := safeStr (jsOrStr b.language (some DEFAULT_LANG))
    if l = "" then DEFAULT_LANG else l
  let rec0 := b.recipient.getD {}
  let pickupOfficeId := officeIdOf b
  let addr := rec0.address.getD {}
  let addrNote := addrNoteOf b
  let cityName := cityNameOf b
  let postCode := postCodeOf b
  let r : Recipient :=
    { privatePerson := some (rec0.privatePerson.getD true)
      clientName := some (safeStr (jsOrStr rec0.clientName (jsOrStr b.receiverName
        (jsOrStr b.recipientName (some "—")))))
      phone1 := (rec0.phone1).orElse (fun _ =>
        if (b.receiverPhone.getD "") ≠ "" then some ⟨safeStr b.receiverPhone⟩ else none)
      pickupOfficeId := if pickupOfficeId ≠ 0 then some pickupOfficeId else none
      address :=
        if pickupOfficeId = 0 then
          some { siteId := some (
                   let s1 := pickSiteId (some addr)
                   let s2 := toInt addr.siteId
                   if s1 ≠ 0 then s1 else if s2 ≠ 0 then s2 else 0)
                 postCode := if postCode ≠ "" then some postCode else none
                 addressNote := if addrNote ≠ "" then some addrNote else none }
        else none
      stashCityName := if pickupOfficeId = 0 then some cityName else none
      stashPostCode := if pickupOfficeId = 0 then some postCode else none }
  let service := b.service.getD
    { serviceId := some (if toInt b.serviceId ≠ 0 then toInt b.serviceId else 505)
      autoAdjustPickupDate := some true }
  let content := b.content.getD
    { parcelsCount := some (if toInt b.parcelsCount ≠ 0 then toInt b.parcelsCount else 1)
      contents := some (safeStr (jsOrStr b.contents (jsOrStr b.contentDescription
        (some "Online order"))))
      package := some (safeStr (jsOrStr b.package (some "BOX")))
      totalWeight := some ((jsOrInt b.totalWeight (jsOrInt b.weight (some 1))).getD 1) }
  let payment0 := b.payment.getD {}
  let payment : Payment :=
    { courierServicePayer := some (normalizeCourierServicePayer
        (jsOrStr payment0.courierServicePayer (jsOrStr b.courierServicePayer (some "SENDER")))) }
  { userName := userName
    password := password
    language := language
    sender := b.sender
    recipient := r
    service := service
    content := content
    payment := payment
    ref1 := safeStr (jsOrStr b.ref1 (jsOrStr b.reference1 (some "")))
    ref2 := safeStr (jsOrStr b.ref2 (jsOrStr b.reference2 (some "")))
    consolidationRef := safeStr (jsOrStr b.consolidationRef (some ""))
    rawStash := b
    siteResolution := none }

/-- The normalized output, read back as a request body: how a second call
of `normalizeShipmentBody` sees the object the first call returned (the
`__raw` key is never read back; the alias keys are absent). -/
def Normalized.toBody (n : Normalized) : Body :=
  { userName := some n.userName
    password := some n.password
    language := some n.language
    recipient := some n.recipient
    service := some n.service
    content := some n.content
    payment := some n.payment
    sender := n.sender
    ref1 := some n.ref1
    ref2 := some n.ref2
    consolidationRef := some n.consolidationRef }

/-- The two errors thrown by `enrichRecipientSiteIdIfNeeded`
(server.js lines 264 and 278), with their diagnostic details. -/
inductive EnrichError where
  | missingCityZip (cityName postCode : String)
  | cannotResolve (cityName postCode : String) (resolved : ResolveResult)
deriving DecidableEq, Repr

/-- Mirrors `enrichRecipientSiteIdIfNeeded` (server.js lines 250-290). -/
def enrichRecipientSiteIdIfNeeded (carrier : SitePayload → SiteRes)
    (n : Normalized) : Except EnrichError Normalized :=
  let r := n.recipient
  if r.pickupOfficeId.getD 0 ≠ 0 then .ok n
  else
    match r.address with
    | none => .ok n
    | some adr =>
      if toInt adr.siteId > 0 then .ok n
      else
        let cityName := safeStr (jsOrStr r.stashCityName (some ""))
        let postCode := safeStr (jsOrStr r.stashPostCode (jsOrStr adr.postCode (some "")))
        if cityName = "" ∧ postCode = "" then .error (.missingCityZip cityName postCode)
        else
          let resolved := (resolveSiteId carrier n.userName n.password n.language
            (some cityName) (some postCode)).1
          if resolved.rid = 0 then .error (.cannotResolve cityName postCode resolved)
          else
            .ok { n with
              recipient := { r with
                address := some { adr with siteId := some resolved.rid }
                stashCityName := none
                stashPostCode := none }
              siteResolution := some resolved }

/-- The upstream shipment payload actually forwarded to the carrier: the
spread copy of the normalized object with the top-level `__raw` and
`__siteResolution` keys deleted (server.js lines 334-336). The recipient
sub-object is carried over by reference, untouched. -/
structure Upstream where
  userName : String
  password : String
  language : String
  sender : Option Sender
  recipient : Recipient
  service : Service
  content : Content
  payment : Payment
  ref1 : String
  ref2 : String
  consolidationRef : String
deriving DecidableEq, Repr

/-- Mirrors the strip step of the `/shipment` handler (server.js
lines 334-336). -/
def stripForUpstream (n : Normalized) : Upstream :=
  { userName := n.userName
    password := n.password
    language := n.language
    sender := n.sender
    recipient := n.recipient
    service := n.service
    content := n.content
    payment := n.payment
    ref1 := n.ref1
    ref2 := n.ref2
    consolidationRef := n.consolidationRef }

/-- Outcome of the `/shipment` handler up to the point where the payload
leaves for the carrier: a 400 for missing credentials (line 327), a
relayed enrichment error (lines 348-354), or the submission itself with
the debug resolution attached (lines 339-347). `submitted` records the
exact payload sent to `shipment/`. -/
inductive ShipOutcome where
  | badRequest (msg : String)
  | enrichFailed (e : EnrichError)
  | submitted (upstream : Upstream) (debugSiteResolution : Option ResolveResult)
deriving DecidableEq, Repr

/-- Mirrors the `/shipment` handler (server.js lines 322-355) up to the
carrier call. -/
def shipmentHandler (carrier : SitePayload → SiteRes) (body : Body) : ShipOutcome :=
  let normalized := normalizeShipmentBody body
  if normalized.userName = "" ∨ normalized.password = "" then
    .badRequest "Missing userName/password"
  else
    match enrichRecipientSiteIdIfNeeded carrier normalized with
    | .error e => .enrichFailed e
    | .ok n2 => .submitted (stripForUpstream n2) n2.siteResolution

/-- JS `String.prototype.includes`: `sub` occurs somewhere in `s`. -/
def strIncludes (s sub : String) : Bool :=
  (List.range (s.data.length + 1)).any (fun i => sub.data.isPrefixOf (s.data.drop i))

/-- An upstream HTTP response as the two label-printing code paths see
it: status code, the `content-type` header (`""` when the header is
absent, mirroring `|| ""` on part_000 line 40), and the body (standing
both for its text and for its raw bytes). -/
structure HttpResp where
  status : Nat
  contentType : String := ""
  body : String := ""
deriving DecidableEq, Repr

/-- Outcome of the binary (label) carrier call `speedyPostPdf`:
the failure object of part_000 line 43, or the success object of
part_000 line 47 carrying the raw bytes. -/
inductive PdfOutcome where
  | failure (status : Nat) (raw : String)
  | success (pdf : String)
deriving DecidableEq, Repr

/-- Mirrors `speedyPostPdf` (src/unnamed/part_000 lines 33-48): only a
content-type containing "application/pdf" is a success; anything else,
whatever the status, is a failure carrying the body as text. -/
def speedyPostPdf (resp : HttpResp) : PdfOutcome :=
  let ct := resp.contentType
  if ¬ strIncludes ct "application/pdf" then .failure resp.status resp.body
  else .success resp.body

/-- Whether `speedyPostPdf` classified the response as a failure. -/
def PdfOutcome.isFailure : PdfOutcome → Bool
  | .failure _ _ => true
  | .success _ => false

/-- The `res.ok` predicate of the fetch API: status in 200..299. -/
def httpOk (status : Nat) : Bool := 200 ≤ status ∧ status ≤ 299

/-- Outcome of the `/print` route of server.js after the upstream fetch:
either the upstream status and body relayed as an error (lines 382-385),
or the body sent onward under an `application/pdf` content-type header
(lines 387-390). -/
inductive PrintRelayOutcome where
  | relayError (status : Nat) (body : String)
  | pdfResponse (body : String)
deriving DecidableEq, Repr

/-- Mirrors the response classification of the `/print` handler in
server.js (lines 382-390): it looks only at `upstreamRes.ok`, never at
the content-type. -/
def printRelay (resp : HttpResp) : PrintRelayOutcome :=
  if ¬ httpOk resp.status then .relayError resp.status resp.body
  else .pdfResponse resp.body

/-- Whether the `/print` route classified the response as an error. -/
def PrintRelayOutcome.isError : PrintRelayOutcome → Bool
  | .relayError _ _ => true
  | .pdfResponse _ => false

/-- The request body of the `/print` route: every key server.js reads
(lines 361-372), plus the legacy `shipments` list key that the spec
talks about, which no code path reads. -/
structure PrintBody where
  userName : Option String := none
  username : Option String := none
  password : Option String := none
  parcelId : Option String := none
  id : Option String := none
  paperSize : Option String := none
  shipments : Option (List String) := none
deriving DecidableEq, Repr

/-- The inner parcel-id record of the print payload. -/
structure ParcelRef where
  id : String
deriving DecidableEq, Repr

/-- One wrapper record of the `parcels` array. -/
structure ParcelWrap where
  parcel : ParcelRef
deriving DecidableEq, Repr

/-- The payload the `/print` handler builds for `print/`
(server.js lines 369-374). -/
structure PrintPayload where
  userName : String
  password : String
  paperSize : String
  parcels : List ParcelWrap
deriving DecidableEq, Repr

/-- Outcome of the input-normalization half of the `/print` handler:
either the 400 response of server.js line 366, or the payload built for
the carrier. -/
inductive PrintOutcome where
  | badRequest (msg : String)
  | payloadBuilt (p : PrintPayload)
deriving DecidableEq, Repr

/-- Mirrors the input handling and payload construction of the `/print`
handler (server.js lines 360-374). -/
def printNormalize (b : PrintBody) : PrintOutcome :=
  let userName := safeStr (jsOrStr b.userName b.username)
  let password := safeStr b.password
  let parcelId := safeStr (jsOrStr b.parcelId (jsOrStr b.id (some "")))
  if userName = "" ∨ password = "" ∨ parcelId = "" then
    .badRequest "Missing userName/password/parcelId"
  else
    .payloadBuilt
      { userName := userName
        password := password
        paperSize := safeStr (jsOrStr b.paperSize (some "A4"))
        parcels := [⟨⟨parcelId⟩⟩] }

/-! ## Claim C1 — drop-off-point / client-account disambiguation -/

/-- Concrete input for C1: a sender whose drop-off-point id exceeds the
32-bit signed positive range while the client-account id is absent. -/
def c1Body : Body :=
  { userName := some "u"
    password := some "p"
    sender := some { dropoffPointId := some 3000000000 } }

/-- Claim C1 counterexample. The claim says normalization moves an
over-range `sender.dropoffPointId` into `sender.clientId` and replaces
the drop-off field with a resolved default. On the concrete input
`c1Body` the code does neither: the drop-off field keeps its original
over-range value and the client-account id stays absent. -/
theorem c1_dropoff_relocation_counterexample :
    ((2147483647 : Int) < 3000000000)
    ∧ (normalizeShipmentBody c1Body).sender.bind Sender.dropoffPointId = some 3000000000
    ∧ ¬ (normalizeShipmentBody c1Body).sender.bind Sender.clientId = some 3000000000 := by
  decide

/-- Claim C1 (amended): `normalizeShipmentBody` spread-copies the sender
verbatim; for a sender whose drop-off-point id exceeds 2147483647 and
whose client-account id is absent, the sender is forwarded unchanged —
the value is not relocated and no default (55 or otherwise) is applied. -/
theorem c1_sender_passthrough_amended (b : Body) (s : Sender)
    (hb : b.sender = some s)
    (_hgt : 2147483647 < s.dropoffPointId.getD 0)
    (hcid : s.clientId = none) :
    (normalizeShipmentBody b).sender = some s
    ∧ (normalizeShipmentBody b).sender.bind Sender.clientId = none
    ∧ (normalizeShipmentBody b).sender.bind Sender.dropoffPointId = s.dropoffPointId := by
  have hpass : (normalizeShipmentBody b).sender = b.sender := rfl
  rw [hpass, hb]
  simp [hcid]

/-- Witness for C1's amended theorem at the concrete input `c1Body`. -/
theorem c1_sender_passthrough_amended_witness :
    (normalizeShipmentBody c1Body).sender = some { dropoffPointId := some 3000000000 }
    ∧ (normalizeShipmentBody c1Body).sender.bind Sender.clientId = none
    ∧ (normalizeShipmentBody c1Body).sender.bind Sender.dropoffPointId = some 3000000000 :=
  c1_sender_passthrough_amended c1Body { dropoffPointId := some 3000000000 }
    (by decide) (by decide) (by decide)

/-! ## Claim C5 — payment-payer enum normalization -/

/-- Claim C5 counterexample. The claim says every value outside the enum
and the legacy "contract_client" falls back to SENDER; the input
"receiver" is such a value, yet the code maps it to RECIPIENT. -/
theorem c5_receiver_counterexample :
    (¬ (jsToUpper (safeStr (some "receiver")) = "CONTRACT_CLIENT"
        ∨ jsToUpper (safeStr (some "receiver")) = "SENDER"
        ∨ jsToUpper (safeStr (some "receiver")) = "RECIPIENT"
        ∨ jsToUpper (safeStr (some "receiver")) = "THIRD_PARTY"))
    ∧ normalizeCourierServicePayer (some "receiver") = "RECIPIENT"
    ∧ ¬ normalizeCourierServicePayer (some "receiver") = "SENDER" := by
  decide

/-- Claim C5 (amended): the normalized payer is always one of SENDER /
RECIPIENT / THIRD_PARTY; "contract_client" (any casing, like the other
legacy synonyms CLIENT, CONTRACT, SENDER_CLIENT) maps to SENDER; enum
values are kept; "receiver" maps to RECIPIENT; everything else falls
back to SENDER. -/
theorem c5_payer_normalization_amended (x : Option String) (v : String)
    (hv : v = jsToUpper (safeStr x)) :
    (normalizeCourierServicePayer x = "SENDER"
      ∨ normalizeCourierServicePayer x = "RECIPIENT"
      ∨ normalizeCourierServicePayer x = "THIRD_PARTY")
    ∧ (v = "CONTRACT_CLIENT" ∨ v = "CLIENT" ∨ v = "CONTRACT" ∨ v = "SENDER_CLIENT" →
        normalizeCourierServicePayer x = "SENDER")
    ∧ (v = "SENDER" ∨ v = "RECIPIENT" ∨ v = "THIRD_PARTY" →
        normalizeCourierServicePayer x = v)
    ∧ (v = "RECEIVER" → normalizeCourierServicePayer x = "RECIPIENT")
    ∧ (¬ (v = "SENDER" ∨ v = "RECIPIENT" ∨ v = "THIRD_PARTY" ∨ v = "CONTRACT_CLIENT"
          ∨ v = "CLIENT" ∨ v = "CONTRACT" ∨ v = "SENDER_CLIENT" ∨ v = "RECEIVER") →
        normalizeCourierServicePayer x = "SENDER") := by
  subst hv
  simp only [normalizeCourierServicePayer]
  split_ifs with h1 h2 h3 h4
  · simp_all
  · rcases h2 with h | h | h <;> simp [h]
  · rcases h3 with h | h | h | h <;> simp [h]
  · simp_all
  · simp_all

/-- Witness for C5's amended theorem: the legacy value in mixed casing
normalizes to SENDER, and a plain enum value is kept. -/
theorem c5_payer_normalization_amended_witness :
    normalizeCourierServicePayer (some "Contract_Client") = "SENDER" :=
  (c5_payer_normalization_amended (some "Contract_Client") "CONTRACT_CLIENT"
      (by decide)).2.1 (by decide)

/-! ## Claim C6 — binary (label) call classification -/

/-- Claim C6 counterexample. The claim covers "the binary label
operation" and in particular says a status-200 response with
content-type application/json is classified as failure; the `/print`
route of server.js classifies by HTTP status alone and relays exactly
such a response onward as a success labelled application/pdf. -/
theorem c6_print_route_counterexample :
    printRelay { status := 200, contentType := "application/json", body := "json error body" }
      = .pdfResponse "json error body"
    ∧ (printRelay { status := 200, contentType := "application/json", body := "json error body" }).isError
      = false := by
  decide

/-- Claim C6 (amended): for the carrier client's binary call
`speedyPostPdf` (the unnamed revision), a response is a success yielding
the raw bytes only when its content-type contains "application/pdf";
every other content-type — including application/octet-stream — is a
failure carrying the body as diagnostic text, even at status 200.
The server.js `/print` route instead classifies by HTTP status alone. -/
theorem c6_binary_classification_amended :
    (∀ resp : HttpResp, strIncludes resp.contentType "application/pdf" = false →
        speedyPostPdf resp = .failure resp.status resp.body)
    ∧ (∀ (resp : HttpResp) (pdf : String), speedyPostPdf resp = .success pdf →
        strIncludes resp.contentType "application/pdf" = true ∧ pdf = resp.body)
    ∧ speedyPostPdf { status := 200, contentType := "application/json", body := "json error body" }
        = .failure 200 "json error body"
    ∧ speedyPostPdf { status := 200, contentType := "application/octet-stream", body := "label bytes" }
        = .failure 200 "label bytes" := by
  refine ⟨?_, ?_, by decide, by decide⟩
  · intro resp h
    simp [speedyPostPdf, h]
  · intro resp pdf h
    by_cases hc : strIncludes resp.contentType "application/pdf"
    · refine ⟨hc, ?_⟩
      simp [speedyPostPdf, hc] at h
      exact h.symm
    · simp [speedyPostPdf, hc] at h

/-- Witness for C6's amended theorem: a concrete text/html response is
classified as a failure by the binary call. -/
theorem c6_binary_classification_amended_witness :
    speedyPostPdf { status := 200, contentType := "text/html", body := "oops" }
      = .failure 200 "oops" :=
  c6_binary_classification_amended.1
    { status := 200, contentType := "text/html", body := "oops" } (by decide)

/-! ## Claim C7 — print-request normalization -/

/-- Concrete input for C7: the legacy list-of-shipments call shape. -/
def c7Body : PrintBody :=
  { userName := some "u"
    password := some "p"
    shipments := some ["A1", "A2"] }

/-- Claim C7 counterexample. The claim says `shipments: ["A1","A2"]`
normalizes to a two-element parcels array with defaults paperSize "A6"
and additionalWaybillSenderCopy "NONE"; the `/print` handler reads only
`parcelId` / `id`, so this input is rejected with the 400 message, and
no two-parcel A6 payload is ever built. -/
theorem c7_shipments_list_counterexample :
    printNormalize c7Body = .badRequest "Missing userName/password/parcelId"
    ∧ ¬ printNormalize c7Body
        = .payloadBuilt
            { userName := "u", password := "p", paperSize := "A6"
              parcels := [⟨⟨"A1"⟩⟩, ⟨⟨"A2"⟩⟩] } := by
  decide

/-- Claim C7 (amended): the `/print` handler accepts a single identifier
under `parcelId` or `id`, wraps it as a one-element parcels array of
`parcel.id` records, defaults paperSize to "A4" (not "A6"), sets no
additionalWaybillSenderCopy option, and answers 400 when no identifier
can be derived — list inputs are not read. -/
theorem c7_print_normalization_amended :
    (∀ b : PrintBody,
        safeStr (jsOrStr b.userName b.username) ≠ "" →
        safeStr b.password ≠ "" →
        safeStr (jsOrStr b.parcelId (jsOrStr b.id (some ""))) ≠ "" →
        printNormalize b = .payloadBuilt
          { userName := safeStr (jsOrStr b.userName b.username)
            password := safeStr b.password
            paperSize := safeStr (jsOrStr b.paperSize (some "A4"))
            parcels := [⟨⟨safeStr (jsOrStr b.parcelId (jsOrStr b.id (some "")))⟩⟩] })
    ∧ (∀ b : PrintBody, b.paperSize = none →
        safeStr (jsOrStr b.paperSize (some "A4")) = "A4")
    ∧ (∀ b : PrintBody, b.parcelId = none → b.id = none →
        printNormalize b = .badRequest "Missing userName/password/parcelId") := by
  refine ⟨?_, ?_, ?_⟩
  · intro b h1 h2 h3
    simp only [printNormalize]
    rw [if_neg]
    simp [h1, h2, h3]
  · intro b h
    simp [jsOrStr, h]
    decide
  · intro b h1 h2
    simp [printNormalize, jsOrStr, h1, h2, safeStr, jsTrim, dropLeadingWs, dropTrailingWs]

/-- Witness for C7's amended theorem at a concrete single-id input. -/
theorem c7_print_normalization_amended_witness :
    printNormalize { userName := some "u", password := some "p", parcelId := some "A1" }
      = .payloadBuilt { userName := "u", password := "p", paperSize := "A4"
                        parcels := [⟨⟨"A1"⟩⟩] } :=
  c7_print_normalization_amended.1
    { userName := some "u", password := some "p", parcelId := some "A1" }
    (by decide) (by decide) (by decide)

/-! ## Claim C8 — sender identity-field stripping -/

/-- Concrete input for C8: a sender with both a client-account id and
every identity field. -/
def c8Body : Body :=
  { userName := some "u"
    password := some "p"
    sender := some { clientId := some 7, clientName := some "ACME", name := some "John"
                     contactName := some "J", privatePerson := some true } }

/-- Claim C8 counterexample. The claim says a normalized sender with a
client-account id carries none of clientName / name / contactName /
privatePerson; on `c8Body` the normalized sender carries all of them
alongside the client id. -/
theorem c8_identity_fields_kept_counterexample :
    ((normalizeShipmentBody c8Body).sender.bind Sender.clientId).isSome = true
    ∧ ((normalizeShipmentBody c8Body).sender.bind Sender.clientName).isSome = true
    ∧ ((normalizeShipmentBody c8Body).sender.bind Sender.name).isSome = true
    ∧ ((normalizeShipmentBody c8Body).sender.bind Sender.contactName).isSome = true
    ∧ ((normalizeShipmentBody c8Body).sender.bind Sender.privatePerson).isSome = true := by
  decide

/-- Claim C8 (amended): normalization never strips sender fields — the
sender object is forwarded verbatim, so a sender holding a
client-account id together with identity fields keeps them all. -/
theorem c8_sender_verbatim_amended (b : Body) :
    (normalizeShipmentBody b).sender = b.sender := rfl

/-! ## Claim C2 — resolver attempt order and short-circuit -/

/-- The carrier site candidate of C2's concrete scenario. -/
def c2Site : Addr := { id := some 42, postCode := some "8600" }

/-- The payload the first (name + zip) attempt sends in C2's scenario. -/
def c2Payload : SitePayload := mkPayload "u" "p" "BG" ⟨"Ямбол", "8600"⟩

/-- Mock carrier for C2: answers the first attempt's payload with one
candidate, everything else with an empty list. -/
def c2Carrier : SitePayload → SiteRes := fun p =>
  if p = c2Payload then .arr [c2Site] else .arr []

/-- Claim C2 (confirmed): when both a (cleaned) city name and a postal
code are present, the attempt list is exactly name+zip, name only, zip
only, uppercased name + zip, lowercased name + zip, in that order; the
loop is strictly sequential and stops at the first attempt whose
response yields a usable match, sending exactly that one payload; and on
the concrete scenario — city "гр. Ямбол", zip "8600", first attempt
answered with the single candidate id 42 / postCode "8600" — the
resolver returns id 42 after exactly one carrier call. -/
theorem c2_attempt_order_and_short_circuit :
    (∀ n z : String, n ≠ "" → z ≠ "" →
        buildAttempts n z = [⟨n, z⟩, ⟨n, ""⟩, ⟨"", z⟩, ⟨jsToUpper n, z⟩, ⟨jsToLower n, z⟩])
    ∧ (∀ (carrier : SitePayload → SiteRes) (mk : SiteQuery → SitePayload) (z : String)
        (a : SiteQuery) (rest : List SiteQuery) (f : Found),
        attemptPick z (extractSitesList (carrier (mk a))) (mk a) = some f →
        runAttempts carrier mk z (a :: rest) = (some f, some (carrier (mk a)), [mk a]))
    ∧ resolveSiteId c2Carrier "u" "p" "BG" (some "гр. Ямбол") (some "8600")
        = (.found ⟨42, some c2Site, c2Payload, 1⟩, [c2Payload]) := by
  refine ⟨?_, ?_, by decide⟩
  · intro n z hn hz
    simp [buildAttempts, hn, hz]
  · intro carrier mk z a rest f h
    simp [runAttempts, h]

/-- Witness for C2's theorem: the attempt ladder at the cleaned concrete
city/zip, via the theorem's first conjunct. -/
theorem c2_attempt_order_and_short_circuit_witness :
    buildAttempts "Ямбол" "8600"
      = [⟨"Ямбол", "8600"⟩, ⟨"Ямбол", ""⟩, ⟨"", "8600"⟩,
         ⟨jsToUpper "Ямбол", "8600"⟩, ⟨jsToLower "Ямбол", "8600"⟩] :=
  c2_attempt_order_and_short_circuit.1 "Ямбол" "8600" (by decide) (by decide)

/-! ## Claim C3 — candidate selection within one attempt -/

/-- A payload constant used only to instantiate C3's selection facts. -/
def c3Payload : SitePayload := mkPayload "u" "p" "BG" ⟨"Ямбол", "8600"⟩

/-- The single no-postal-match candidate of C3's concrete scenario. -/
def c3Site : Addr := { id := some 7, postCode := some "9999" }

/-- Claim C3 (confirmed): within one successful attempt, when a postal
code was supplied the selected candidate is the first whose postal code
equals or starts with the supplied zip (provided it carries a usable
id); when no zip was supplied, or no candidate postal-matches, the first
candidate of the non-empty list is selected (provided it carries a
usable id); and the concrete attempt returning only id 7 / postCode
"9999" against supplied zip "8600" yields id 7. -/
theorem c3_attempt_candidate_selection :
    (∀ (z : String) (sites : List Addr) (p : SitePayload) (c : Addr),
        z ≠ "" → sites.find? (fun s => postMatch z s) = some c → pickSiteId (some c) ≠ 0 →
        attemptPick z sites p = some ⟨pickSiteId (some c), some c, p, sites.length⟩)
    ∧ (∀ (z : String) (p : SitePayload) (c0 : Addr) (cs : List Addr),
        (z = "" ∨ (c0 :: cs).find? (fun s => postMatch z s) = none) →
        pickSiteId (some c0) ≠ 0 →
        attemptPick z (c0 :: cs) p
          = some ⟨pickSiteId (some c0), some c0, p, (c0 :: cs).length⟩)
    ∧ attemptPick "8600" [c3Site] c3Payload = some ⟨7, some c3Site, c3Payload, 1⟩ := by
  refine ⟨?_, ?_, by decide⟩
  · intro z sites p c hz hfind hid
    cases sites with
    | nil => simp at hfind
    | cons s ss => simp [attemptPick, hz, hfind, hid]
  · intro z p c0 cs hnone hid
    rcases hnone with hz | hfind
    · simp [attemptPick, hz, hid]
    · by_cases hz : z = ""
      · simp [attemptPick, hz, hid]
      · have hid' : ¬ ((c0.id.orElse fun _ => c0.siteId).orElse
            fun _ => c0.siteNestedId).getD 0 = 0 := by
          simpa [pickSiteId] using hid
        simp [attemptPick, hz, hfind, pickSiteId, hid']

/-- Witness for C3's theorem: the postal-match clause at a concrete
two-candidate list where the second candidate is the zip match. -/
theorem c3_attempt_candidate_selection_witness :
    attemptPick "8600" [{ id := some 7, postCode := some "9999" }, c2Site] c3Payload
      = some ⟨42, some c2Site, c3Payload, 2⟩ :=
  c3_attempt_candidate_selection.1 "8600"
    [{ id := some 7, postCode := some "9999" }, c2Site] c3Payload c2Site
    (by decide) (by decide) (by decide)

/-! ## Claim C4 — exhaustion result and hard failure for door deliveries -/

/-- Helper: when every attempt of the ladder yields no usable match, the
loop runs the whole ladder, producing no match, the last call's raw
response, and the full list of payloads in order. -/
theorem runAttempts_all_fail (carrier : SitePayload → SiteRes)
    (mk : SiteQuery → SitePayload) (z : String) :
    ∀ l : List SiteQuery,
      (∀ a ∈ l, attemptPick z (extractSitesList (carrier (mk a))) (mk a) = none) →
      runAttempts carrier mk z l
        = (none, l.getLast?.map (fun a => carrier (mk a)), l.map mk) := by
  intro l
  induction l with
  | nil => intro _; simp [runAttempts]
  | cons a rest ih =>
    intro h
    have ha := h a (by simp)
    have hrest : ∀ b ∈ rest,
        attemptPick z (extractSitesList (carrier (mk b))) (mk b) = none :=
      fun b hb => h b (by simp [hb])
    simp only [runAttempts, ha]
    rw [ih hrest]
    cases rest with
    | nil => simp
    | cons b bs =>
      rw [List.getLast?_cons_cons]
      cases hbs : (b :: bs).getLast? with
      | none => simp at hbs
      | some x => simp

/-- Mock carrier for C4's witness: every search comes back empty. -/
def c4Carrier : SitePayload → SiteRes := fun _ => .arr []

/-- Concrete door-delivery body for C4's witness. -/
def c4Body : Body :=
  { userName := some "u"
    password := some "p"
    city := some "Sofia" }

/-- Claim C4 (confirmed): when no attempt yields a usable identifier the
resolver returns the failure object — identifier 0, the full list of
attempted query payloads, and the last raw carrier response — having
called the carrier once per attempt; a door-delivery shipment without a
positive site id whose resolution comes back 0 makes the enrichment step
fail hard; and the shipment handler never submits a payload to the
carrier once enrichment has failed. -/
theorem c4_exhaustion_and_hard_failure :
    (∀ (carrier : SitePayload → SiteRes) (u p lang : String) (city zipIn : Option String),
        (∀ a ∈ buildAttempts (cleanCityName city) (safeStr zipIn),
          attemptPick (safeStr zipIn)
            (extractSitesList (carrier (mkPayload u p lang a))) (mkPayload u p lang a) = none) →
        resolveSiteId carrier u p lang city zipIn
          = (.failed (buildAttempts (cleanCityName city) (safeStr zipIn))
              ((buildAttempts (cleanCityName city) (safeStr zipIn)).getLast?.map
                (fun a => carrier (mkPayload u p lang a))),
             (buildAttempts (cleanCityName city) (safeStr zipIn)).map (mkPayload u p lang))
        ∧ (resolveSiteId carrier u p lang city zipIn).1.rid = 0)
    ∧ (∀ (carrier : SitePayload → SiteRes) (n : Normalized) (adr : Addr),
        n.recipient.pickupOfficeId.getD 0 = 0 →
        n.recipient.address = some adr →
        ¬ toInt adr.siteId > 0 →
        (resolveSiteId carrier n.userName n.password n.language
          (some (safeStr (jsOrStr n.recipient.stashCityName (some ""))))
          (some (safeStr (jsOrStr n.recipient.stashPostCode
            (jsOrStr adr.postCode (some "")))))).1.rid = 0 →
        ∃ e, enrichRecipientSiteIdIfNeeded carrier n = .error e)
    ∧ (∀ (carrier : SitePayload → SiteRes) (b : Body) (e : EnrichError),
        enrichRecipientSiteIdIfNeeded carrier (normalizeShipmentBody b) = .error e →
        ∀ up dbg, shipmentHandler carrier b ≠ .submitted up dbg) := by
  refine ⟨?_, ?_, ?_⟩
  · intro carrier u p lang city zipIn h
    have hrun := runAttempts_all_fail carrier (mkPayload u p lang) (safeStr zipIn)
      (buildAttempts (cleanCityName city) (safeStr zipIn)) h
    constructor
    · simp [resolveSiteId, hrun]
    · simp [resolveSiteId, hrun, ResolveResult.rid]
  · intro carrier n adr hoffice haddr hsite hrid
    simp only [enrichRecipientSiteIdIfNeeded]
    rw [if_neg (by simp [hoffice])]
    simp only [haddr]
    rw [if_neg hsite]
    by_cases hcz : safeStr (jsOrStr n.recipient.stashCityName (some "")) = ""
        ∧ safeStr (jsOrStr n.recipient.stashPostCode (jsOrStr adr.postCode (some ""))) = ""
    · rw [if_pos hcz]
      exact ⟨_, rfl⟩
    · rw [if_neg hcz, if_pos hrid]
      exact ⟨_, rfl⟩
  · intro carrier b e he up dbg
    simp only [shipmentHandler]
    split_ifs with hcred
    · simp
    · simp [he]

/-- Witness for C4's theorem: the empty-answering carrier on the concrete
door-delivery body — exhaustion result, enrichment error, no submission. -/
theorem c4_exhaustion_and_hard_failure_witness :
    ((resolveSiteId c4Carrier "u" "p" "BG" (some "Sofia") (some "")).1.rid = 0)
    ∧ (∃ e, enrichRecipientSiteIdIfNeeded c4Carrier (normalizeShipmentBody c4Body) = .error e)
    ∧ shipmentHandler c4Carrier c4Body
        ≠ .submitted (stripForUpstream (normalizeShipmentBody c4Body)) none := by
  refine ⟨(c4_exhaustion_and_hard_failure.1 c4Carrier "u" "p" "BG"
      (some "Sofia") (some "") (by decide)).2, ?_, ?_⟩
  · exact c4_exhaustion_and_hard_failure.2.1 c4Carrier (normalizeShipmentBody c4Body)
      { id := none, siteId := some 0, siteNestedId := none, postCode := none
        zip := none, cityName := none, city := none, name := none, addressNote := none }
      (by decide) (by decide) (by decide) (by decide)
  · obtain ⟨e, he⟩ := c4_exhaustion_and_hard_failure.2.1 c4Carrier
      (normalizeShipmentBody c4Body)
      { id := none, siteId := some 0, siteNestedId := none, postCode := none
        zip := none, cityName := none, city := none, name := none, addressNote := none }
      (by decide) (by decide) (by decide) (by decide)
    exact c4_exhaustion_and_hard_failure.2.2 c4Carrier c4Body e he _ _

/-! ## Claim C9 — stripping of transient fields before submission -/

/-- Concrete door-delivery input whose site id is already known, so the
enrichment step returns early. -/
def c9Body : Body :=
  { userName := some "u"
    password := some "p"
    city := some "Sofia"
    recipient := some { address := some { siteId := some 5 } } }

/-- A carrier that is never consulted in C9's counterexample scenario. -/
def c9Carrier : SitePayload → SiteRes := fun _ => .other

/-- Claim C9 counterexample. The claim says the stashed `__cityName` /
`__postCode` are stripped before the carrier call for both resolved and
already-known-siteId door deliveries; on `c9Body` (siteId already 5) the
handler submits a payload whose recipient still carries both stashes. -/
theorem c9_stash_forwarded_counterexample :
    shipmentHandler c9Carrier c9Body
      = .submitted (stripForUpstream (normalizeShipmentBody c9Body)) none
    ∧ (stripForUpstream (normalizeShipmentBody c9Body)).recipient.stashCityName = some "Sofia"
    ∧ (stripForUpstream (normalizeShipmentBody c9Body)).recipient.stashPostCode = some "" := by
  decide

/-- Claim C9 (amended): the top-level `__raw` and `__siteResolution`
keys are always stripped before the carrier call (the upstream payload
has no such fields), and the recipient object is forwarded untouched by
the strip step; the stashed `__cityName` / `__postCode` are removed only
on the resolution path — whenever the enrichment actually resolved
(attached a site resolution), the enriched recipient carries no stashes. -/
theorem c9_transient_strip_amended :
    (∀ n : Normalized, (stripForUpstream n).recipient = n.recipient)
    ∧ (∀ (carrier : SitePayload → SiteRes) (n n2 : Normalized),
        n.siteResolution = none →
        enrichRecipientSiteIdIfNeeded carrier n = .ok n2 →
        n2.siteResolution ≠ none →
        n2.recipient.stashCityName = none ∧ n2.recipient.stashPostCode = none) := by
  refine ⟨fun n => rfl, ?_⟩
  intro carrier n n2 h0 hok hres
  simp only [enrichRecipientSiteIdIfNeeded] at hok
  by_cases h1 : n.recipient.pickupOfficeId.getD 0 ≠ 0
  · rw [if_pos h1] at hok
    injection hok with h
    subst h
    exact absurd h0 hres
  · rw [if_neg h1] at hok
    cases haddr : n.recipient.address with
    | none =>
      rw [haddr] at hok
      dsimp only at hok
      injection hok with h
      subst h
      exact absurd h0 hres
    | some adr =>
      rw [haddr] at hok
      dsimp only at hok
      by_cases h2 : toInt adr.siteId > 0
      · rw [if_pos h2] at hok
        injection hok with h
        subst h
        exact absurd h0 hres
      · rw [if_neg h2] at hok
        by_cases h3 : safeStr (jsOrStr n.recipient.stashCityName (some "")) = ""
            ∧ safeStr (jsOrStr n.recipient.stashPostCode (jsOrStr adr.postCode (some ""))) = ""
        · rw [if_pos h3] at hok
          exact Except.noConfusion hok
        · rw [if_neg h3] at hok
          by_cases h4 : (resolveSiteId carrier n.userName n.password n.language
              (some (safeStr (jsOrStr n.recipient.stashCityName (some ""))))
              (some (safeStr (jsOrStr n.recipient.stashPostCode
                (jsOrStr adr.postCode (some "")))))).1.rid = 0
          · rw [if_pos h4] at hok
            exact Except.noConfusion hok
          · rw [if_neg h4] at hok
            injection hok with h
            subst h
            exact ⟨rfl, rfl⟩

/-- Door-delivery body for C9's witness, resolved by `c9OkCarrier`. -/
def c9DoorBody : Body :=
  { userName := some "u"
    password := some "p"
    city := some "Burgas" }

/-- A carrier answering every search with one usable candidate. -/
def c9OkCarrier : SitePayload → SiteRes :=
  fun _ => .arr [{ id := some 9, postCode := some "1000" }]

/-- The enriched shipment of C9's witness scenario. -/
def c9Enriched : Normalized :=
  (enrichRecipientSiteIdIfNeeded c9OkCarrier (normalizeShipmentBody c9DoorBody)).toOption.getD
    (normalizeShipmentBody c9DoorBody)

/-- Witness for C9's amended theorem on the concrete resolution path. -/
theorem c9_transient_strip_amended_witness :
    (stripForUpstream c9Enriched).recipient = c9Enriched.recipient
    ∧ (c9Enriched.recipient.stashCityName = none
        ∧ c9Enriched.recipient.stashPostCode = none) :=
  ⟨c9_transient_strip_amended.1 c9Enriched,
   c9_transient_strip_amended.2 c9OkCarrier (normalizeShipmentBody c9DoorBody) c9Enriched
     (by decide) (by rfl) (by decide)⟩

/-! ## Claim C10 — idempotence of shipment normalization -/

/-- The `__raw` key of the normalized output always holds the input
body itself. -/
theorem normalize_rawStash (b : Body) : (normalizeShipmentBody b).rawStash = b := rfl

/-- The stashed city name of the normalized recipient, as a function of
the office-id chain and the city-name alias chain. -/
theorem normalize_stashCityName (b : Body) :
    (normalizeShipmentBody b).recipient.stashCityName
      = if officeIdOf b = 0 then some (cityNameOf b) else none := rfl

/-- The normalized recipient's pickup-office id. -/
theorem normalize_pickupOfficeId (b : Body) :
    (normalizeShipmentBody b).recipient.pickupOfficeId
      = if officeIdOf b ≠ 0 then some (officeIdOf b) else none := rfl

/-- The normalized recipient's address object. -/
theorem normalize_address (b : Body) :
    (normalizeShipmentBody b).recipient.address
      = if officeIdOf b = 0 then
          some { siteId := some (
                   let s1 := pickSiteId (some ((b.recipient.getD {}).address.getD {}))
                   let s2 := toInt ((b.recipient.getD {}).address.getD {}).siteId
                   if s1 ≠ 0 then s1 else if s2 ≠ 0 then s2 else 0)
                 postCode := if postCodeOf b ≠ "" then some (postCodeOf b) else none
                 addressNote := if addrNoteOf b ≠ "" then some (addrNoteOf b) else none }
        else none := rfl

/-- Re-reading a door-delivery normalized output as a body still yields
office id 0 (the output recipient carries no pickup-office key and the
alias keys are absent). -/
theorem officeIdOf_toBody (b : Body) (h : officeIdOf b = 0) :
    officeIdOf ((normalizeShipmentBody b).toBody) = 0 := by
  unfold officeIdOf
  simp only [Normalized.toBody, Option.getD_some]
  rw [normalize_pickupOfficeId, h]
  simp [jsOrInt, toInt]

/-- Re-reading a door-delivery normalized output as a body loses the
city name: the rebuilt address object has no city-name keys and the
top-level aliases are gone, so the alias chain comes up empty. -/
theorem cityNameOf_toBody (b : Body) (h : officeIdOf b = 0) :
    cityNameOf ((normalizeShipmentBody b).toBody) = "" := by
  unfold cityNameOf
  simp only [Normalized.toBody, Option.getD_some]
  rw [normalize_address, h]
  simp [jsOrStr, safeStr, jsTrim, dropLeadingWs, dropTrailingWs]

/-- Concrete input for C10: a door delivery whose city name arrives in a
top-level key. -/
def c10Body : Body :=
  { userName := some "u"
    password := some "p"
    city := some "Sofia" }

/-- Claim C10 counterexample. Normalizing the normalized output of
`c10Body` does not reproduce it: the stashed `__cityName` collapses from
"Sofia" to "" (and `__raw` re-wraps the previous output), so
normalization is not idempotent. -/
theorem c10_not_idempotent_counterexample :
    ¬ normalizeShipmentBody ((normalizeShipmentBody c10Body).toBody)
        = normalizeShipmentBody c10Body
    ∧ (normalizeShipmentBody ((normalizeShipmentBody c10Body).toBody)).recipient.stashCityName
        = some ""
    ∧ (normalizeShipmentBody c10Body).recipient.stashCityName = some "Sofia" := by
  decide

/-- Claim C10 (amended): normalization is not idempotent. Two fields
necessarily move on re-normalization: `__raw` always holds the previous
pass's input (so the second pass stores the first pass's output, not the
original body), and for door deliveries the stashed `__cityName` of the
second pass is always empty, because the normalized output retains the
city name only in the stash, which is never read back. -/
theorem c10_idempotence_amended :
    (∀ b : Body, (normalizeShipmentBody b).rawStash = b)
    ∧ (∀ b : Body, officeIdOf b = 0 →
        (normalizeShipmentBody ((normalizeShipmentBody b).toBody)).recipient.stashCityName
          = some ""
        ∧ (normalizeShipmentBody ((normalizeShipmentBody b).toBody)).rawStash
          = (normalizeShipmentBody b).toBody) := by
  refine ⟨normalize_rawStash, ?_⟩
  intro b h
  constructor
  · rw [normalize_stashCityName, officeIdOf_toBody b h, cityNameOf_toBody b h]
    simp
  · exact normalize_rawStash _

/-- Witness for C10's amended theorem at the concrete input `c10Body`. -/
theorem c10_idempotence_amended_witness :
    (normalizeShipmentBody ((normalizeShipmentBody c10Body).toBody)).recipient.stashCityName
      = some ""
    ∧ (normalizeShipmentBody ((normalizeShipmentBody c10Body).toBody)).rawStash
      = (normalizeShipmentBody c10Body).toBody :=
  c10_idempotence_amended.2 c10Body (by decide)

end SpeedyProxy
